import Mathlib

/-!
Verification of the rust-measurements quantity framework.

The numeric parameter T of the crate (a num_traits::Float) is embedded as ℚ:
every operation of the framework is plain field arithmetic on the base-unit
scalar, so the rational numbers model the intended real-number semantics of
the code while keeping every definition executable and decidable.
-/

namespace Measurements

/-- One step of the reversed-order scan in Measurement::pick_appropriate_units
(src/measurement.rs): walk the (already reversed) unit list, divide the
base-unit value by the scale of the entry, and return the first entry whose
quotient is at least 1 or at most -1. -/
def pick_loop (base : ℚ) : List (String × ℚ) → Option (String × ℚ)
  | [] => none
  | (unit, scale) :: rest =>
    let value := base / scale
    if 1 ≤ value ∨ value ≤ -1 then some (unit, value) else pick_loop base rest

/-- Measurement::pick_appropriate_units (src/measurement.rs lines 68-76):
scan the list in reverse with an early return; if no entry qualifies, fall
back to indexing entry 0. The fallible index list[0] is modelled by head?, so
an empty list yields none exactly where the Rust code would panic. -/
def pick_appropriate_units (base : ℚ) (list : List (String × ℚ)) :
    Option (String × ℚ) :=
  match pick_loop base list.reverse with
  | some r => some r
  | none => list.head?.map (fun p => (p.1, base / p.2))

/-- The qualification test of pick_appropriate_units: the base value divided
by the scale of the entry has magnitude at least one. -/
def qualifies (base : ℚ) (p : String × ℚ) : Bool :=
  decide (1 ≤ base / p.2 ∨ base / p.2 ≤ -1)

/-- The early-return loop is a find-first over the scanned list. -/
theorem pick_loop_eq_find (base : ℚ) (l : List (String × ℚ)) :
    pick_loop base l = (l.find? (qualifies base)).map fun p => (p.1, base / p.2) := by
  induction l with
  | nil => rfl
  | cons p rest ih =>
    obtain ⟨unit, scale⟩ := p
    by_cases h : 1 ≤ base / scale ∨ base / scale ≤ -1
    · simp [pick_loop, List.find?, qualifies, h]
    · simp [pick_loop, List.find?, qualifies, h, ih]

/-- C1: pick_appropriate_units scans the table in reverse (largest scale
first) and returns the name of the first entry whose quotient is at least 1
or at most -1 together with that quotient, falling back to the name and
quotient of the first (smallest) entry; on the table g/kg, a base value of 1
selects kg at 1, 0.999 selects g at 999, 1.001 selects kg at 1.001, and -1
selects kg at -1. -/
theorem C1_pick_appropriate_units_spec
    (base : ℚ) (l : List (String × ℚ)) (h : l ≠ []) :
    (pick_appropriate_units base l =
      match l.reverse.find? (qualifies base) with
      | some p => some (p.1, base / p.2)
      | none => some ((l.headI).1, base / (l.headI).2))
    ∧ pick_appropriate_units 1 [("g", 1/1000), ("kg", 1)] = some ("kg", 1)
    ∧ pick_appropriate_units (999/1000) [("g", 1/1000), ("kg", 1)] =
        some ("g", 999)
    ∧ pick_appropriate_units (1001/1000) [("g", 1/1000), ("kg", 1)] =
        some ("kg", 1001/1000)
    ∧ pick_appropriate_units (-1) [("g", 1/1000), ("kg", 1)] =
        some ("kg", -1) := by
  refine ⟨?_, by norm_num [pick_appropriate_units, pick_loop],
    by norm_num [pick_appropriate_units, pick_loop],
    by norm_num [pick_appropriate_units, pick_loop],
    by norm_num [pick_appropriate_units, pick_loop]⟩
  unfold pick_appropriate_units
  rw [pick_loop_eq_find]
  cases hf : l.reverse.find? (qualifies base) with
  | some p => simp
  | none =>
    cases l with
    | nil => exact absurd rfl h
    | cons a as => simp [List.headI]

/-- Closed instance of C1: evaluated on the one-entry kilogram table. -/
theorem C1_pick_appropriate_units_spec_witness :
    pick_appropriate_units 1 [("kg", (1 : ℚ))] =
      match [("kg", (1 : ℚ))].reverse.find? (qualifies 1) with
      | some p => some (p.1, 1 / p.2)
      | none => some (([("kg", (1 : ℚ))].headI).1, 1 / ([("kg", (1 : ℚ))].headI).2) :=
  (C1_pick_appropriate_units_spec 1 [("kg", 1)] (List.cons_ne_nil _ _)).1

/-- C7: with a nonempty table, pick_appropriate_units is total: the fallback
access of the first entry is in bounds and a result is always produced. -/
theorem C7_pick_appropriate_units_total
    (base : ℚ) (l : List (String × ℚ)) (h : l ≠ []) :
    (pick_appropriate_units base l).isSome = true := by
  unfold pick_appropriate_units
  cases hl : pick_loop base l.reverse with
  | some r => rfl
  | none =>
    cases l with
    | nil => exact absurd rfl h
    | cons a as => simp

/-- Closed instance of C7: the zero value on the one-entry gram table still
produces a result, through the fallback path. -/
theorem C7_pick_appropriate_units_total_witness :
    (pick_appropriate_units 0 [("g", (1/1000 : ℚ))]).isSome = true :=
  C7_pick_appropriate_units_total 0 [("g", 1/1000)] (List.cons_ne_nil _ _)

/-- A concrete quantity type of the crate: every measurement struct wraps a
single scalar held in the base unit of the type (spec section 3), and the
implement_measurement! and impl_maths! macros generate textually identical
code for each such struct; the phantom tag records which quantity the
wrapper is, so distinct quantity kinds stay distinct types. -/
structure Quantity (tag : String) where
  base_units : ℚ
deriving DecidableEq

/-- Measurement::as_base_units for a single-field quantity struct: return the
stored base-unit scalar. -/
def Quantity.as_base_units {t : String} (q : Quantity t) : ℚ :=
  q.base_units

/-- Measurement::from_base_units for a single-field quantity struct: wrap the
given base-unit scalar. -/
def Quantity.from_base_units (t : String) (units : ℚ) : Quantity t :=
  ⟨units⟩

/-- Add generated by implement_measurement! (src/measurement.rs lines
113-119): from_base_units of the sum of the base units of the operands. -/
def Quantity.add {t : String} (self rhs : Quantity t) : Quantity t :=
  Quantity.from_base_units t (self.as_base_units + rhs.as_base_units)

/-- Sub generated by implement_measurement! (src/measurement.rs lines
121-127): from_base_units of the difference of the base units of the operands. -/
def Quantity.sub {t : String} (self rhs : Quantity t) : Quantity t :=
  Quantity.from_base_units t (self.as_base_units - rhs.as_base_units)

/-- Div of two values of the same quantity type, generated by
implement_measurement! (src/measurement.rs lines 131-137): the output is the
bare scalar ratio of the base-unit values, not a quantity. -/
def Quantity.div_same {t : String} (self rhs : Quantity t) : ℚ :=
  self.as_base_units / rhs.as_base_units

/-- The multiplication body generated by impl_maths! (src/lib.rs lines
137-158): both generated Mul impls for a registered relation A = B x C
compute Output::from_base_units(self.as_base_units() * rhs.as_base_units()),
with output type A. -/
def impl_maths_mul (a : String) {b c : String}
    (self : Quantity b) (rhs : Quantity c) : Quantity a :=
  Quantity.from_base_units a (self.as_base_units * rhs.as_base_units)

/-- The division body generated by impl_maths! (src/lib.rs lines 160-180):
both generated Div impls for a registered relation compute
Output::from_base_units(self.as_base_units() / rhs.as_base_units()). -/
def impl_maths_div (out : String) {a b : String}
    (self : Quantity a) (rhs : Quantity b) : Quantity out :=
  Quantity.from_base_units out (self.as_base_units / rhs.as_base_units)

/-- The registered three-type relations A = B x C, transcribed from the
impl_maths! invocations in src/lib.rs lines 204-218 (the two-type form
Area = Length x Length is the only invocation with B = C and is not in this
list). -/
def impl_maths_relations : List (String × String × String) :=
  [("Energy", "Duration", "Power"),
   ("Force", "Mass", "Acceleration"),
   ("Force", "Pressure", "Area"),
   ("Length", "Duration", "Speed"),
   ("Power", "Force", "Speed"),
   ("Speed", "Duration", "Acceleration"),
   ("Volume", "Length", "Area"),
   ("Power", "AngularVelocity", "Torque"),
   ("Power", "Voltage", "Current"),
   ("Voltage", "Resistance", "Current"),
   ("TorqueEnergy", "Force", "Length")]

/-- C2: for every registered relation A = B x C with B and C distinct, the
two generated multiplication orders agree and produce an A whose base-unit
value is the product of the base-unit values of the operands, and for nonzero
operands both generated inverse divisions recover the other operand. -/
theorem C2_impl_maths_product_and_inverse
    (a b c : String) (hmem : (a, b, c) ∈ impl_maths_relations)
    (x : Quantity b) (y : Quantity c)
    (hx : x.as_base_units ≠ 0) (hy : y.as_base_units ≠ 0) :
    impl_maths_mul a x y = impl_maths_mul a y x
    ∧ (impl_maths_mul a x y).as_base_units = x.as_base_units * y.as_base_units
    ∧ impl_maths_div c (impl_maths_mul a x y) x = y
    ∧ impl_maths_div b (impl_maths_mul a x y) y = x := by
  obtain ⟨xv⟩ := x
  obtain ⟨yv⟩ := y
  simp only [Quantity.as_base_units] at hx hy
  refine ⟨?_, rfl, ?_, ?_⟩
  · simp [impl_maths_mul, Quantity.from_base_units, Quantity.as_base_units,
      mul_comm]
  · simp only [impl_maths_mul, impl_maths_div, Quantity.from_base_units,
      Quantity.as_base_units, Quantity.mk.injEq]
    field_simp
  · simp only [impl_maths_mul, impl_maths_div, Quantity.from_base_units,
      Quantity.as_base_units, Quantity.mk.injEq]
    field_simp

/-- Closed instance of C2: the Force = Mass x Acceleration relation at base
values 2 and 3. -/
theorem C2_impl_maths_product_and_inverse_witness :
    impl_maths_mul "Force" ((@Quantity.mk "Mass" 2))
        ((@Quantity.mk "Acceleration" 3)) =
      impl_maths_mul "Force" ((@Quantity.mk "Acceleration" 3))
        ((@Quantity.mk "Mass" 2))
    ∧ (impl_maths_mul "Force" ((@Quantity.mk "Mass" 2))
        ((@Quantity.mk "Acceleration" 3))).as_base_units = 2 * 3
    ∧ impl_maths_div "Acceleration"
        (impl_maths_mul "Force" ((@Quantity.mk "Mass" 2))
          ((@Quantity.mk "Acceleration" 3)))
        ((@Quantity.mk "Mass" 2)) =
      (@Quantity.mk "Acceleration" 3)
    ∧ impl_maths_div "Mass"
        (impl_maths_mul "Force" ((@Quantity.mk "Mass" 2))
          ((@Quantity.mk "Acceleration" 3)))
        ((@Quantity.mk "Acceleration" 3)) =
      (@Quantity.mk "Mass" 2) :=
  C2_impl_maths_product_and_inverse "Force" "Mass" "Acceleration"
    (by simp [impl_maths_relations]) ⟨2⟩ ⟨3⟩ (by norm_num [Quantity.as_base_units])
    (by norm_num [Quantity.as_base_units])

/-- C5: addition and subtraction from the derived operator set work on base
units, so adding then subtracting the same value is the identity. -/
theorem C5_add_sub_cancel (t : String) (a b : Quantity t) :
    (a.add b).sub b = a := by
  obtain ⟨av⟩ := a
  obtain ⟨bv⟩ := b
  simp [Quantity.add, Quantity.sub, Quantity.from_base_units,
    Quantity.as_base_units]

/-- C6: dividing two values of the same quantity type yields the bare scalar
ratio of their base-unit values, and any value with nonzero base-unit value
divided by itself gives 1. -/
theorem C6_div_same (t : String) (a b : Quantity t)
    (h : a.as_base_units ≠ 0) :
    a.div_same b = a.as_base_units / b.as_base_units
    ∧ a.div_same a = 1 := by
  exact ⟨rfl, div_self h⟩

/-- Closed instance of C6: a quantity with base value 2 divided by itself. -/
theorem C6_div_same_witness :
    ((@Quantity.mk "Mass" 2)).div_same ((@Quantity.mk "Mass" 2)) =
      ((@Quantity.mk "Mass" 2)).as_base_units /
        ((@Quantity.mk "Mass" 2)).as_base_units
    ∧ ((@Quantity.mk "Mass" 2)).div_same ((@Quantity.mk "Mass" 2)) = 1 :=
  C6_div_same "Mass" ⟨2⟩ ⟨2⟩ (by norm_num [Quantity.as_base_units])

/-- Temperature (src/temperature.rs): an absolute temperature storing
degrees kelvin. -/
structure Temperature where
  degrees_kelvin : ℚ
deriving DecidableEq

/-- TemperatureDelta (src/temperature.rs): a temperature difference storing
kelvin degrees. -/
structure TemperatureDelta where
  kelvin_degrees : ℚ
deriving DecidableEq

/-- Temperature::from_kelvin. -/
def Temperature.from_kelvin (degrees_kelvin : ℚ) : Temperature :=
  ⟨degrees_kelvin⟩

/-- Temperature::from_celsius: from_kelvin of the value plus 273.15. -/
def Temperature.from_celsius (degrees_celsius : ℚ) : Temperature :=
  Temperature.from_kelvin (degrees_celsius + 273.15)

/-- Temperature::as_kelvin. -/
def Temperature.as_kelvin (self : Temperature) : ℚ :=
  self.degrees_kelvin

/-- TemperatureDelta::from_kelvin. -/
def TemperatureDelta.from_kelvin (kelvin_degrees : ℚ) : TemperatureDelta :=
  ⟨kelvin_degrees⟩

/-- TemperatureDelta::from_celsius: a celsius degree is a kelvin degree. -/
def TemperatureDelta.from_celsius (celsius_degrees : ℚ) : TemperatureDelta :=
  TemperatureDelta.from_kelvin celsius_degrees

/-- TemperatureDelta::as_kelvin. -/
def TemperatureDelta.as_kelvin (self : TemperatureDelta) : ℚ :=
  self.kelvin_degrees

/-- Add of TemperatureDelta to Temperature (src/temperature.rs lines
180-189): from_kelvin of the sum of the kelvin values, output Temperature. -/
def Temperature.add_delta (self : Temperature) (other : TemperatureDelta) :
    Temperature :=
  Temperature.from_kelvin (self.degrees_kelvin + other.kelvin_degrees)

/-- Add of Temperature to TemperatureDelta (src/temperature.rs lines
191-200): delegates to the other order. -/
def TemperatureDelta.add_temperature (self : TemperatureDelta)
    (other : Temperature) : Temperature :=
  other.add_delta self

/-- Sub of TemperatureDelta from Temperature (src/temperature.rs lines
202-211): from_kelvin of the difference, output Temperature. -/
def Temperature.sub_delta (self : Temperature) (other : TemperatureDelta) :
    Temperature :=
  Temperature.from_kelvin (self.degrees_kelvin - other.kelvin_degrees)

/-- Sub of Temperature from Temperature (src/temperature.rs lines 213-222):
the output is a TemperatureDelta, not a Temperature. -/
def Temperature.sub_temperature (self other : Temperature) :
    TemperatureDelta :=
  TemperatureDelta.from_kelvin (self.degrees_kelvin - other.degrees_kelvin)

/-- C4: subtracting two Temperatures yields a TemperatureDelta carrying the
kelvin difference (the output type of sub_temperature is TemperatureDelta);
adding a delta in either order yields the same Temperature, carrying the
kelvin sum; subtracting a delta subtracts kelvin values; and 100 C minus
0 C is the 100-degree delta. -/
theorem C4_temperature_affine (a b : Temperature) (d : TemperatureDelta) :
    (a.sub_temperature b).as_kelvin = a.as_kelvin - b.as_kelvin
    ∧ (a.add_delta d).as_kelvin = a.as_kelvin + d.as_kelvin
    ∧ d.add_temperature a = a.add_delta d
    ∧ (a.sub_delta d).as_kelvin = a.as_kelvin - d.as_kelvin
    ∧ (Temperature.from_celsius 100).sub_temperature
        (Temperature.from_celsius 0) = TemperatureDelta.from_celsius 100 := by
  refine ⟨rfl, rfl, rfl, rfl, ?_⟩
  simp only [Temperature.from_celsius, Temperature.from_kelvin,
    Temperature.sub_temperature, TemperatureDelta.from_celsius,
    TemperatureDelta.from_kelvin, TemperatureDelta.mk.injEq]
  norm_num

/-- Torque (src/torque.rs): wraps newton metres. -/
structure Torque where
  newton_metres : ℚ
deriving DecidableEq

/-- Torque::from_newton_metres. -/
def Torque.from_newton_metres (newton_metres : ℚ) : Torque :=
  ⟨newton_metres⟩

/-- TorqueEnergy (src/torque_energy.rs): the bridging value produced by
Force times Length, wrapping newton metres. -/
structure TorqueEnergy where
  newton_metres : ℚ
deriving DecidableEq

/-- Measurement::from_base_units for TorqueEnergy (src/torque_energy.rs). -/
def TorqueEnergy.from_base_units (units : ℚ) : TorqueEnergy :=
  ⟨units⟩

/-- Modelled from the spec: the force module is declared in src/lib.rs but
its file is not under src/; per spec section 3 a quantity is a single-field
wrapper of its base-unit scalar, here newtons. -/
structure Force where
  newtons : ℚ
deriving DecidableEq

/-- Modelled from the spec: Force::from_newtons wraps the newton value. -/
def Force.from_newtons (newtons : ℚ) : Force :=
  ⟨newtons⟩

/-- Modelled from the spec: Force::as_base_units returns the newton value. -/
def Force.as_base_units (self : Force) : ℚ :=
  self.newtons

/-- Modelled from the spec: the length module is declared in src/lib.rs but
its file is not under src/; a single-field wrapper of metres. -/
structure Length where
  metres : ℚ
deriving DecidableEq

/-- Modelled from the spec: Length::from_meters wraps the metre value. -/
def Length.from_meters (metres : ℚ) : Length :=
  ⟨metres⟩

/-- Modelled from the spec: Length::as_base_units returns the metre value. -/
def Length.as_base_units (self : Length) : ℚ :=
  self.metres

/-- Modelled from the spec: the energy module is declared in src/lib.rs but
its file is not under src/; a single-field wrapper of joules. -/
structure Energy where
  joules : ℚ
deriving DecidableEq

/-- Modelled from the spec: Energy::from_joules wraps the joule value. -/
def Energy.from_joules (joules : ℚ) : Energy :=
  ⟨joules⟩

/-- Mul of Length by Force, generated by the invocation
impl_maths!(TorqueEnergy, Force, Length) in src/lib.rs line 218: the output
is the bridging TorqueEnergy. -/
def Force.mul_length (self : Force) (rhs : Length) : TorqueEnergy :=
  TorqueEnergy.from_base_units (self.as_base_units * rhs.as_base_units)

/-- Mul of Force by Length, the other order generated by the same
invocation. -/
def Length.mul_force (self : Length) (rhs : Force) : TorqueEnergy :=
  TorqueEnergy.from_base_units (self.as_base_units * rhs.as_base_units)

/-- From TorqueEnergy for Torque (src/torque_energy.rs lines 18-25):
Torque::from_newton_metres of the stored newton metres. -/
def Torque.from_torque_energy (t : TorqueEnergy) : Torque :=
  Torque.from_newton_metres t.newton_metres

/-- From TorqueEnergy for Energy (src/torque_energy.rs lines 27-34):
Energy::from_joules of the stored newton metres. -/
def Energy.from_torque_energy (t : TorqueEnergy) : Energy :=
  Energy.from_joules t.newton_metres

/-- Every quantity-times-quantity Mul impl of the crate, as (left operand,
right operand, output) type names: the expansion of the impl_maths!
invocations of src/lib.rs lines 203-218 (each three-type invocation yields
both operand orders; the two-type Area invocation yields the single
Length-times-Length impl), plus the two handwritten Duration and
Acceleration impls of src/acceleration.rs, which duplicate macro-generated
entries. The handwritten impls of src/lib.rs lines 223-253 are divisions
only and contribute no Mul impl, and the scalar Mul impls generated by
implement_measurement! take a bare number, not a quantity. -/
def crate_mul_impls : List (String × String × String) :=
  [("Length", "Length", "Area"),
   ("Power", "Duration", "Energy"), ("Duration", "Power", "Energy"),
   ("Acceleration", "Mass", "Force"), ("Mass", "Acceleration", "Force"),
   ("Area", "Pressure", "Force"), ("Pressure", "Area", "Force"),
   ("Speed", "Duration", "Length"), ("Duration", "Speed", "Length"),
   ("Speed", "Force", "Power"), ("Force", "Speed", "Power"),
   ("Acceleration", "Duration", "Speed"), ("Duration", "Acceleration", "Speed"),
   ("Area", "Length", "Volume"), ("Length", "Area", "Volume"),
   ("Torque", "AngularVelocity", "Power"), ("AngularVelocity", "Torque", "Power"),
   ("Current", "Voltage", "Power"), ("Voltage", "Current", "Power"),
   ("Current", "Resistance", "Voltage"), ("Resistance", "Current", "Voltage"),
   ("Length", "Force", "TorqueEnergy"), ("Force", "Length", "TorqueEnergy"),
   ("Acceleration", "Duration", "Speed"), ("Duration", "Acceleration", "Speed")]

/-- C3: Force times Length in either order yields the TorqueEnergy bridging
value carrying the product of the newton and metre values; its Torque
conversion is from_newton_metres of that product and its Energy conversion
is from_joules of it; 10 N times 2 m gives 20 Nm and 20 J; and the crate
Mul impl table registers Force times Length only with output TorqueEnergy,
never with output Torque or Energy. -/
theorem C3_torque_energy_bridge (f : Force) (l : Length) :
    f.mul_length l = l.mul_force f
    ∧ Torque.from_torque_energy (f.mul_length l) =
        Torque.from_newton_metres (f.newtons * l.metres)
    ∧ Energy.from_torque_energy (f.mul_length l) =
        Energy.from_joules (f.newtons * l.metres)
    ∧ Torque.from_torque_energy
        ((Force.from_newtons 10).mul_length (Length.from_meters 2)) =
        Torque.from_newton_metres 20
    ∧ Energy.from_torque_energy
        ((Force.from_newtons 10).mul_length (Length.from_meters 2)) =
        Energy.from_joules 20
    ∧ ("Force", "Length", "TorqueEnergy") ∈ crate_mul_impls
    ∧ ("Length", "Force", "TorqueEnergy") ∈ crate_mul_impls
    ∧ ("Force", "Length", "Torque") ∉ crate_mul_impls
    ∧ ("Force", "Length", "Energy") ∉ crate_mul_impls
    ∧ ("Length", "Force", "Torque") ∉ crate_mul_impls
    ∧ ("Length", "Force", "Energy") ∉ crate_mul_impls := by
  refine ⟨?_, rfl, rfl, ?_, ?_, ?_, ?_, ?_, ?_, ?_, ?_⟩
  · simp [Force.mul_length, Length.mul_force, TorqueEnergy.from_base_units,
      Force.as_base_units, Length.as_base_units, mul_comm]
  · simp [Force.mul_length, Force.from_newtons, Length.from_meters,
      Torque.from_torque_energy, Torque.from_newton_metres,
      TorqueEnergy.from_base_units, Force.as_base_units, Length.as_base_units]
    norm_num
  · simp [Force.mul_length, Force.from_newtons, Length.from_meters,
      Energy.from_torque_energy, Energy.from_joules,
      TorqueEnergy.from_base_units, Force.as_base_units, Length.as_base_units]
    norm_num
  · simp [crate_mul_impls]
  · simp [crate_mul_impls]
  · simp [crate_mul_impls]
  · simp [crate_mul_impls]
  · simp [crate_mul_impls]
  · simp [crate_mul_impls]

/-- Truncation toward zero of a rational: the rounding applied by Rust
float-to-integer casts before saturation. -/
def rust_trunc (x : ℚ) : ℤ :=
  if 0 ≤ x then ⌊x⌋ else ⌈x⌉

/-- The Rust float remainder operator: the remainder takes the sign of the
dividend, computed as x minus y times the truncated quotient. -/
def rust_fmod (x y : ℚ) : ℚ :=
  x - y * rust_trunc (x / y)

/-- A Rust float cast via `as` to u32: truncate toward zero, then saturate
into the u32 range. -/
def rust_as_u32 (x : ℚ) : ℕ :=
  (min (max (rust_trunc x) 0) (2 ^ 32 - 1)).toNat

/-- A Rust float cast via `as` to u64: truncate toward zero, then saturate
into the u64 range. -/
def rust_as_u64 (x : ℚ) : ℕ :=
  (min (max (rust_trunc x) 0) (2 ^ 64 - 1)).toNat

/-- std::time::Duration, the external Time quantity: whole seconds (a u64,
modelled as ℕ with the range bound taken as a hypothesis where needed) and
subsecond nanoseconds kept strictly below one second by construction. -/
structure Duration where
  secs : ℕ
  nanos : ℕ
deriving DecidableEq

/-- Duration::new: nanoseconds of a second or more carry into the seconds. -/
def Duration.new (s n : ℕ) : Duration :=
  ⟨s + n / 10 ^ 9, n % 10 ^ 9⟩

/-- Measurement::as_base_units for Duration (src/lib.rs lines 188-190):
whole seconds plus subsecond nanoseconds times 1e-9. -/
def Duration.as_base_units (d : Duration) : ℚ :=
  (d.secs : ℚ) + (d.nanos : ℚ) * (1e-9 : ℚ)

/-- Measurement::from_base_units for Duration (src/lib.rs lines 192-196):
the subsecond nanoseconds are the units times 1e9 modulo 1e9 cast to u32,
and the seconds are the units cast to u64. -/
def Duration.from_base_units (units : ℚ) : Duration :=
  Duration.new (rust_as_u64 units)
    (rust_as_u32 (rust_fmod (units * (1e9 : ℚ)) (1e9 : ℚ)))

/-- The truncation of a nonnegative whole-plus-fraction sum is the whole
part. -/
theorem rust_trunc_add_fract (s : ℕ) (q : ℚ) (h0 : 0 ≤ q) (h1 : q < 1) :
    rust_trunc ((s : ℚ) + q) = s := by
  have hx : (0 : ℚ) ≤ (s : ℚ) + q := by positivity
  rw [rust_trunc, if_pos hx]
  rw [Int.floor_eq_iff]
  push_cast
  constructor
  · linarith
  · linarith

/-- C8: a Duration with in-range seconds and subsecond nanoseconds survives
the round trip through the base-unit scalar: from_base_units of
as_base_units is the identity. -/
theorem C8_duration_base_units_roundtrip (d : Duration)
    (hs : d.secs < 2 ^ 64) (hn : d.nanos < 10 ^ 9) :
    Duration.from_base_units d.as_base_units = d := by
  obtain ⟨s, n⟩ := d
  simp only at hs hn
  have hq0 : (0 : ℚ) ≤ (n : ℚ) * (1e-9 : ℚ) := by positivity
  have hq1 : (n : ℚ) * (1e-9 : ℚ) < 1 := by
    rw [show (1e-9 : ℚ) = 1 / 10 ^ 9 by norm_num]
    rw [mul_one_div, div_lt_one (by positivity)]
    exact_mod_cast hn
  have hu : Duration.as_base_units ⟨s, n⟩ = (s : ℚ) + (n : ℚ) * (1e-9 : ℚ) := rfl
  have htrunc : rust_trunc ((s : ℚ) + (n : ℚ) * (1e-9 : ℚ)) = s :=
    rust_trunc_add_fract s _ hq0 hq1
  have hmul : ((s : ℚ) + (n : ℚ) * (1e-9 : ℚ)) * (1e9 : ℚ) =
      (s : ℚ) * 10 ^ 9 + (n : ℚ) := by
    norm_num
    ring
  have hdivq : ((s : ℚ) * 10 ^ 9 + (n : ℚ)) / (1e9 : ℚ) =
      (s : ℚ) + (n : ℚ) * (1e-9 : ℚ) := by
    norm_num
    field_simp
  have hfmod : rust_fmod (((s : ℚ) + (n : ℚ) * (1e-9 : ℚ)) * (1e9 : ℚ))
      (1e9 : ℚ) = (n : ℚ) := by
    rw [rust_fmod, hmul, hdivq, htrunc]
    push_cast
    norm_num
    ring
  have htruncn : rust_trunc ((n : ℚ)) = n := by
    rw [rust_trunc, if_pos (by positivity)]
    exact_mod_cast Int.floor_intCast (n : ℤ)
  have hu32 : rust_as_u32 ((n : ℚ)) = n := by
    rw [rust_as_u32, htruncn]
    have h1 : max ((n : ℤ)) 0 = (n : ℤ) := max_eq_left (by positivity)
    have h2 : min ((n : ℤ)) (2 ^ 32 - 1) = (n : ℤ) := by
      apply min_eq_left
      have : (n : ℤ) < 10 ^ 9 := by exact_mod_cast hn
      omega
    rw [h1, h2, Int.toNat_natCast]
  have hu64 : rust_as_u64 ((s : ℚ) + (n : ℚ) * (1e-9 : ℚ)) = s := by
    rw [rust_as_u64, htrunc]
    have h1 : max ((s : ℤ)) 0 = (s : ℤ) := max_eq_left (by positivity)
    have h2 : min ((s : ℤ)) (2 ^ 64 - 1) = (s : ℤ) := by
      apply min_eq_left
      have : (s : ℤ) < 2 ^ 64 := by exact_mod_cast hs
      omega
    rw [h1, h2, Int.toNat_natCast]
  rw [hu, Duration.from_base_units, hfmod, hu32, hu64, Duration.new]
  have hdiv : n / 10 ^ 9 = 0 := Nat.div_eq_of_lt hn
  have hmod : n % 10 ^ 9 = n := Nat.mod_eq_of_lt hn
  rw [hdiv, hmod, Nat.add_zero]

/-- Closed instance of C8: the Duration of 3 seconds and 500000000
nanoseconds round trips. -/
theorem C8_duration_base_units_roundtrip_witness :
    Duration.from_base_units (Duration.as_base_units ⟨3, 500000000⟩) =
      (⟨3, 500000000⟩ : Duration) :=
  C8_duration_base_units_roundtrip ⟨3, 500000000⟩ (by norm_num) (by norm_num)

/-- test_utils::DEFAULT_DELTA (src/test_utils.rs): 1e-5. -/
def DEFAULT_DELTA : ℚ := 1e-5

/-- test_utils::abs (src/test_utils.rs lines 40-49): x when x is positive,
otherwise its negation. -/
def abs (x : ℚ) : ℚ :=
  if x > 0 then x else -x

/-- test_utils::almost_eq_delta (src/test_utils.rs lines 14-19): true when
the absolute difference divided by the first argument is below d. -/
def almost_eq_delta (a b d : ℚ) : Bool :=
  decide (abs (a - b) / a < d)

/-- test_utils::almost_eq (src/test_utils.rs lines 6-11): almost_eq_delta at
the default delta. -/
def almost_eq (a b : ℚ) : Bool :=
  almost_eq_delta a b DEFAULT_DELTA

/-- The abs function of the source is nonnegative. -/
theorem abs_nonneg_tu (x : ℚ) : 0 ≤ abs x := by
  rw [abs]
  split <;> linarith

/-- C10: for a negative reference a, any b and any positive delta d,
almost_eq_delta a b d is true, because the quotient it tests is nonpositive;
hence almost_eq accepts everything against a negative reference, and it is
not symmetric: -1 is almost equal to 100, but 100 is not almost equal
to -1. -/
theorem C10_almost_eq_negative_reference (a b d : ℚ) (ha : a < 0)
    (hd : 0 < d) :
    almost_eq_delta a b d = true
    ∧ almost_eq a b = true
    ∧ almost_eq (-1) 100 = true
    ∧ almost_eq 100 (-1) = false := by
  have key : ∀ e : ℚ, 0 < e → almost_eq_delta a b e = true := by
    intro e he
    have h1 : abs (a - b) / a ≤ 0 :=
      div_nonpos_iff.2 (Or.inl ⟨abs_nonneg_tu _, ha.le⟩)
    simp only [almost_eq_delta, decide_eq_true_eq]
    linarith
  refine ⟨key d hd, key DEFAULT_DELTA (by norm_num [DEFAULT_DELTA]), ?_, ?_⟩
  · norm_num [almost_eq, almost_eq_delta, abs, DEFAULT_DELTA]
  · norm_num [almost_eq, almost_eq_delta, abs, DEFAULT_DELTA]

/-- Closed instance of C10: reference -1 accepts 100 at delta 1, while the
reversed comparison rejects. -/
theorem C10_almost_eq_negative_reference_witness :
    almost_eq_delta (-1) 100 1 = true
    ∧ almost_eq (-1) 100 = true
    ∧ almost_eq (-1) 100 = true
    ∧ almost_eq 100 (-1) = false :=
  C10_almost_eq_negative_reference (-1) 100 1 (by norm_num) (by norm_num)

/-- Acceleration (src/acceleration.rs): wraps metres per second squared.
The file is a stale, non-generic variant: its struct stores an f64 directly
and its Measurement impl block names its accessor get_base_units. -/
structure Acceleration where
  meters_per_second_per_second : ℚ
deriving DecidableEq

/-- Acceleration::from_meters_per_second_per_second. -/
def Acceleration.from_meters_per_second_per_second (v : ℚ) : Acceleration :=
  ⟨v⟩

/-- The accessor the impl Measurement for Acceleration block supplies
(src/acceleration.rs lines 64-67): it is named get_base_units, not
as_base_units. -/
def Acceleration.get_base_units (self : Acceleration) : ℚ :=
  self.meters_per_second_per_second

/-- Acceleration::from_base_units (src/acceleration.rs lines 69-71). -/
def Acceleration.from_base_units (units : ℚ) : Acceleration :=
  Acceleration.from_meters_per_second_per_second units

/-- The method names a type must supply to implement trait Measurement
(src/measurement.rs lines 48-87): the members of the trait without a default
body. -/
def measurement_required_methods : List String :=
  ["get_base_units_name", "as_base_units", "from_base_units"]

/-- The method names supplied by the impl Measurement for Acceleration block
(src/acceleration.rs lines 64-76). -/
def acceleration_impl_methods : List String :=
  ["get_base_units", "from_base_units", "get_base_units_name"]

/-- C9 (failing part of the claim): the Measurement trait requires a method
named as_base_units, but the Acceleration impl supplies get_base_units
instead, so Acceleration does not implement the Quantity Contract with the
signatures of the contract; at the value level the stale accessor still returns
the stored metres-per-second-squared scalar. -/
theorem C9_acceleration_contract_mismatch :
    "as_base_units" ∈ measurement_required_methods
    ∧ "as_base_units" ∉ acceleration_impl_methods
    ∧ "get_base_units" ∈ acceleration_impl_methods
    ∧ Acceleration.get_base_units (Acceleration.from_base_units 5) = 5 := by
  refine ⟨?_, ?_, ?_, rfl⟩
  · simp [measurement_required_methods]
  · simp [acceleration_impl_methods]
  · simp [acceleration_impl_methods]

end Measurements
